import Mathlib

/-!
Formal model of the update-distribution layer of the imapsql storage module
(internal/storage/imapsql/imapsql.go): the `EnableUpdatePipe`, `Updates` and
`Close` methods of `Storage`, together with the background forwarder goroutine
started by `EnableUpdatePipe`.

The development has three parts:

1. A functional model of `Storage.EnableUpdatePipe` (lines 210-283) and
   `Storage.Updates` (lines 297-304) as state transformers over the fields of
   `Storage` that those methods read and write (`driver`, `updates`, `updPipe`)
   plus two derived observations (whether the forwarder goroutine was started,
   and the capacity of the `wrapped` channel).  The behaviour of the external
   pipe operations `updPipe.Listen` and `updPipe.InitPush` (succeed or fail)
   and the capacity of the backend update channel are inputs (`PipeEnv`).

2. A functional model `pushLoop` of the per-event body of the forwarder
   goroutine (lines 259-278), iterated over the events read from the `upds`
   channel while no stop signal is pending: each event is pushed to the pipe
   (a push failure is logged and otherwise ignored) and, when the mode is not
   `ModePush`, enqueued onto the `wrapped` channel.

3. A small-step concurrency model of the synchronization between the
   forwarder goroutine (lines 248-279) and `Storage.Close` (lines 365-380):
   the unbuffered `updPushStop` channel, the `select` between the stop signal
   and the next event, the nil sentinel of the closed update channel, and the
   deferred block that sends the acknowledgment, closes `wrapped` and only
   then runs `recover`.  A schedule (list of `Choice`) resolves the
   nondeterminism of the Go scheduler and of `select`; inapplicable choices
   leave the state unchanged, so every schedule denotes a valid interleaving.
-/

/-- Modelled from the spec: the `updatepipe.BackendMode` enumeration lives in
internal/updatepipe, which is not part of the analysed sources.  The spec
lists the modes as Push-only, Listen-only and Replicate (push+listen).  The
analysed code compares the mode only against `updatepipe.ModeReplicate`
(line 235) and `updatepipe.ModePush` (line 274). -/
inductive BackendMode
  | modePush
  | modeListen
  | modeReplicate
deriving DecidableEq, Repr

/-- Update events are opaque records; only their identity matters here. -/
abbrev Event := Nat

/-- What `store.updates` points at: the raw backend channel returned by
`store.Back.Updates()`, or the `wrapped` channel allocated at line 233. -/
inductive UpdatesRef
  | rawBackend
  | wrappedStream
deriving DecidableEq, Repr

/-- Observable state of the `updatepipe.P` handle stored in `store.updPipe`:
whether `Listen` was called on it (line 236) and whether `InitPush` was
called on it (line 242). -/
structure PipeState where
  listenActive : Bool
  pushInit : Bool
deriving DecidableEq, Repr

/-- The fields of `Storage` read or written by `EnableUpdatePipe` and
`Updates`, plus two derived observations: whether the forwarder goroutine of
lines 248-279 was started, and the capacity of the `wrapped` channel made at
line 233 (`none` while no such channel exists). -/
structure StorageState where
  driver : String
  updates : Option UpdatesRef
  updPipe : Option PipeState
  forwarderStarted : Bool
  wrappedCap : Option Nat
deriving DecidableEq, Repr

/-- Environment of one `EnableUpdatePipe` call: the capacity of the channel
returned by `store.Back.Updates()` and whether the external calls
`updPipe.Listen` (line 236) and `updPipe.InitPush` (line 242) fail. -/
structure PipeEnv where
  backCap : Nat
  listenFails : Bool
  initPushFails : Bool
deriving DecidableEq, Repr

/-- Which error value an error return of `EnableUpdatePipe` carries:
the literal error of line 230, or the error propagated from `Listen`
(line 238) or from `InitPush` (line 244). -/
inductive ErrSrc
  | driverNoPipe
  | listenFailed
  | initPushFailed
deriving DecidableEq, Repr

/-- Outcome of an `EnableUpdatePipe` call: a `nil` return, a non-nil error
return, or a runtime panic with the given message. -/
inductive EnableOutcome
  | retNil
  | retErr (e : ErrSrc)
  | panicked (msg : String)
deriving DecidableEq, Repr

/-- Does an `EnableUpdatePipe` outcome carry a non-nil error return value? -/
def EnableOutcome.isErr : EnableOutcome → Bool
  | EnableOutcome.retErr _ => true
  | _ => false

/-- Model of `Storage.EnableUpdatePipe` (imapsql.go lines 210-283).
Line 211: a non-nil `updPipe` returns nil at once.  Line 214: a non-nil
`updates` panics.  Lines 220-231: only the sqlite3 driver has a pipe
implementation; any other driver returns an error with `updPipe` still nil.
Line 233: `wrapped` is allocated with capacity `cap(upds)*2`.  Lines 235-240:
`Listen` is called only in `ModeReplicate`; on failure `updPipe` is reset to
nil and the error returned.  Lines 242-245: `InitPush` is called in every
mode; on failure `updPipe` is reset to nil and the error returned.  Lines
247-281: on success the goroutine is started and `store.updates` is set to
the `wrapped` channel. -/
def enableUpdatePipe (env : PipeEnv) (mode : BackendMode) (s : StorageState) :
    StorageState × EnableOutcome :=
  if s.updPipe.isSome then
    (s, EnableOutcome.retNil)
  else if s.updates.isSome then
    (s, EnableOutcome.panicked "imapsql: EnableUpdatePipe called after Updates")
  else if s.driver ≠ "sqlite3" then
    (s, EnableOutcome.retErr ErrSrc.driverNoPipe)
  else if mode = BackendMode.modeReplicate ∧ env.listenFails then
    ({ s with updPipe := none }, EnableOutcome.retErr ErrSrc.listenFailed)
  else if env.initPushFails then
    ({ s with updPipe := none }, EnableOutcome.retErr ErrSrc.initPushFailed)
  else
    ({ s with
        updPipe := some { listenActive := decide (mode = BackendMode.modeReplicate),
                          pushInit := true },
        forwarderStarted := true,
        wrappedCap := some (env.backCap * 2),
        updates := some UpdatesRef.wrappedStream },
     EnableOutcome.retNil)

/-- Model of `Storage.Updates` (imapsql.go lines 297-304): return the memoized
`store.updates` if set, otherwise claim and memoize the raw backend channel. -/
def updatesMethod (s : StorageState) : StorageState × UpdatesRef :=
  match s.updates with
  | some u => (s, u)
  | none => ({ s with updates := some UpdatesRef.rawBackend }, UpdatesRef.rawBackend)

/-- A fresh sqlite3-backed `Storage` right after `Init`: no update consumer,
no pipe, no forwarder. -/
def freshSqliteState : StorageState :=
  { driver := "sqlite3", updates := none, updPipe := none,
    forwarderStarted := false, wrappedCap := none }

/-- Default environment: backend channel capacity 4, both pipe operations
succeed. -/
def defaultEnv : PipeEnv :=
  { backCap := 4, listenFails := false, initPushFails := false }

/-- Storage state after one successful `EnableUpdatePipe(ModeReplicate)`. -/
def afterFirstEnable : StorageState :=
  (enableUpdatePipe defaultEnv BackendMode.modeReplicate freshSqliteState).1

/-- Storage state after `Updates()` was called on a fresh storage, before any
`EnableUpdatePipe`: the raw backend channel is claimed. -/
def consumedState : StorageState :=
  (updatesMethod freshSqliteState).1

/-- Model of the per-event body of the forwarder goroutine (imapsql.go lines
259-278), iterated over the list of events read from `upds` while no stop
signal is pending.  Returns the list of events enqueued onto `wrapped`
(line 275, guarded by `mode != ModePush` at line 274) and the list of events
whose `updPipe.Push` failed and was logged (lines 270-272).  A push failure
does not stop the loop and does not suppress the local enqueue. -/
def pushLoop (mode : BackendMode) (pushFail : Event → Bool) :
    List Event → List Event × List Event
  | [] => ([], [])
  | u :: rest =>
    let r := pushLoop mode pushFail rest
    ((if mode = BackendMode.modePush then r.1 else u :: r.1),
     (if pushFail u then u :: r.2 else r.2))

/-- Program counter of the forwarder goroutine (imapsql.go lines 248-279).
`inLoop`: blocked at the `select` of line 260.  `atDrainStop`: received the
nil sentinel and blocked at the stop receive of line 266.  `deferAck p`: the
goroutine body finished (normally when `p = false`, by panic when `p = true`)
and the deferred block is blocked sending the acknowledgment at line 250.
`done p`: the deferred block completed — acknowledgment sent, `wrapped`
closed, and `recover` ran (logging the panic when `p = true`). -/
inductive GoPc
  | inLoop
  | atDrainStop
  | deferAck (panicNow : Bool)
  | done (panicNow : Bool)
deriving DecidableEq, Repr

/-- Program counter of `Storage.Close` (imapsql.go lines 365-380).
`notCalled`: `Close` not yet invoked.  `sendStop`: `store.Back.Close()` done,
blocked sending the stop signal at line 373.  `recvAck`: stop signal
delivered, blocked receiving the acknowledgment at line 374.  `returned`:
`Close` returned. -/
inductive ClosePc
  | notCalled
  | sendStop
  | recvAck
  | returned
deriving DecidableEq, Repr

/-- Configuration of the forwarder goroutine and `Close` running concurrently,
in `ModeReplicate`.  `buffered` are the events queued in the `upds` channel;
`updsClosed` records that `store.Back.Close()` closed it (after which reads
drain `buffered` and then yield the nil sentinel); `delivered` are the events
the goroutine enqueued onto `wrapped`; `loggedFault` records that the
`recover` of line 253 caught a panic and line 255 logged it. -/
structure SysState where
  buffered : List Event
  updsClosed : Bool
  delivered : List Event
  loggedFault : Bool
  goPc : GoPc
  closePc : ClosePc
deriving DecidableEq, Repr

/-- One scheduler decision.  `callClose`: run `Close` up to its blocking send
(lines 367-373).  `selectStop`: the `select` of line 260 takes the stop case
(legal whenever the stop sender is pending, even if events are buffered).
`selectEvent`: the `select` takes the event case and the body of lines
270-276 runs to completion.  `selectEventPanic`: the event case is taken but
`updPipe.Push` panics before the enqueue, entering the deferred block.
`recvNil`: the `select` reads the nil sentinel from the closed, drained
channel (lines 264-267 up to the blocking receive).  `drainStop`: the receive
at line 266 meets the pending stop sender.  `ackRecv`: the acknowledgment
send at line 250 meets the receiver at line 374, after which the goroutine
closes `wrapped`, runs `recover`, and `Close` returns. -/
inductive Choice
  | callClose
  | selectStop
  | selectEvent
  | selectEventPanic
  | recvNil
  | drainStop
  | ackRecv
deriving DecidableEq, Repr

/-- Small-step transition of the concurrent system.  A choice whose enabling
condition does not hold leaves the state unchanged, so an arbitrary list of
choices always denotes a valid interleaving.  Rendezvous on the unbuffered
`updPushStop` channel requires a pending sender and a pending receiver:
two pending senders never unblock each other. -/
def step (s : SysState) : Choice → SysState
  | Choice.callClose =>
    match s.closePc with
    | ClosePc.notCalled => { s with updsClosed := true, closePc := ClosePc.sendStop }
    | _ => s
  | Choice.selectStop =>
    match s.goPc, s.closePc with
    | GoPc.inLoop, ClosePc.sendStop =>
      { s with goPc := GoPc.deferAck false, closePc := ClosePc.recvAck }
    | _, _ => s
  | Choice.selectEvent =>
    match s.goPc, s.buffered with
    | GoPc.inLoop, u :: rest =>
      { s with buffered := rest, delivered := s.delivered ++ [u] }
    | _, _ => s
  | Choice.selectEventPanic =>
    match s.goPc, s.buffered with
    | GoPc.inLoop, _ :: rest =>
      { s with buffered := rest, goPc := GoPc.deferAck true }
    | _, _ => s
  | Choice.recvNil =>
    match s.goPc, s.buffered, s.updsClosed with
    | GoPc.inLoop, [], true => { s with goPc := GoPc.atDrainStop }
    | _, _, _ => s
  | Choice.drainStop =>
    match s.goPc, s.closePc with
    | GoPc.atDrainStop, ClosePc.sendStop =>
      { s with goPc := GoPc.deferAck false, closePc := ClosePc.recvAck }
    | _, _ => s
  | Choice.ackRecv =>
    match s.goPc, s.closePc with
    | GoPc.deferAck p, ClosePc.recvAck =>
      { s with goPc := GoPc.done p, closePc := ClosePc.returned,
               loggedFault := s.loggedFault || p }
    | _, _ => s

/-- Run the system under a schedule. -/
def runSys (s : SysState) : List Choice → SysState
  | [] => s
  | c :: cs => runSys (step s c) cs

/-- Initial configuration: the forwarder goroutine is at its `select`, `Close`
has not been called, and `events` are buffered in the `upds` channel. -/
def initSys (events : List Event) : SysState :=
  { buffered := events, updsClosed := false, delivered := [],
    loggedFault := false, goPc := GoPc.inLoop, closePc := ClosePc.notCalled }

/-- Configuration reached when `updPipe.Push` panics while one event is being
processed and `Close` is called afterwards: the goroutine is blocked sending
the acknowledgment inside its deferred block, and `Close` is blocked sending
the stop signal — two senders on the unbuffered `updPushStop` channel. -/
def panicThenClose : SysState :=
  runSys (initSys [0]) [Choice.selectEventPanic, Choice.callClose]

/-- Helper: when the mode is not `ModePush`, the forwarder loop enqueues onto
the wrapped channel every event it reads, in order. -/
theorem pushLoop_fst_of_ne (mode : BackendMode) (pushFail : Event → Bool)
    (hm : mode ≠ BackendMode.modePush) :
    ∀ events : List Event, (pushLoop mode pushFail events).1 = events := by
  intro events
  induction events with
  | nil => rfl
  | cons u rest ih => simp [pushLoop, hm, ih]

/-- Helper: the logged push failures are exactly the events on which
`updPipe.Push` failed, in order. -/
theorem pushLoop_snd (mode : BackendMode) (pushFail : Event → Bool) :
    ∀ events : List Event,
      (pushLoop mode pushFail events).2 = events.filter pushFail := by
  intro events
  induction events with
  | nil => rfl
  | cons u rest ih =>
    by_cases h : pushFail u <;> simp [pushLoop, h, ih, List.filter_cons]

/-- Claim C1: in Replicate mode the forwarder loop enqueues onto the wrapped
channel (the Local Distribution Stream) exactly the events read from the
backend update channel, in the same order — no event dropped, duplicated or
reordered, regardless of which push attempts fail. -/
theorem replicate_forwards_all_events (pushFail : Event → Bool) (events : List Event) :
    (pushLoop BackendMode.modeReplicate pushFail events).1 = events :=
  pushLoop_fst_of_ne BackendMode.modeReplicate pushFail (by decide) events

/-- Claim C8: in Push-only mode the forwarder loop never enqueues any event
onto the wrapped channel: the write at line 275 is guarded by the
`mode != ModePush` test at line 274. -/
theorem push_mode_never_enqueues (pushFail : Event → Bool) (events : List Event) :
    (pushLoop BackendMode.modePush pushFail events).1 = [] := by
  induction events with
  | nil => rfl
  | cons u rest ih => simp [pushLoop, ih]

/-- Claim C7: when `updPipe.Push` fails on event `u`, the failure is logged,
`u` is still enqueued onto the wrapped channel in its original position
whenever the mode is not Push-only, and the loop keeps processing all the
remaining events. -/
theorem push_failure_nonfatal (mode : BackendMode) (pushFail : Event → Bool)
    (pre post : List Event) (u : Event)
    (hm : mode ≠ BackendMode.modePush) (hf : pushFail u = true) :
    (pushLoop mode pushFail (pre ++ u :: post)).1 = pre ++ u :: post ∧
      u ∈ (pushLoop mode pushFail (pre ++ u :: post)).2 := by
  constructor
  · exact pushLoop_fst_of_ne mode pushFail hm _
  · rw [pushLoop_snd]
    simp [List.mem_filter, hf]

/-- Claim C7 witness: Replicate mode, a single event whose push fails. -/
theorem push_failure_nonfatal_witness :
    (pushLoop BackendMode.modeReplicate (fun _ => true) ([] ++ 0 :: [])).1
        = [] ++ 0 :: [] ∧
      0 ∈ (pushLoop BackendMode.modeReplicate (fun _ => true) ([] ++ 0 :: [])).2 :=
  push_failure_nonfatal BackendMode.modeReplicate (fun _ => true) [] [] 0
    (by decide) rfl

/-- Helper: shape of the state after a successful `EnableUpdatePipe` call on a
storage with no active pipe: the pipe handle is installed with `Listen` done
exactly in Replicate mode and `InitPush` done, the forwarder goroutine is
started, the wrapped channel has double the backend capacity, and
`store.updates` points at the wrapped channel. -/
theorem enable_success_shape (env : PipeEnv) (mode : BackendMode) (s : StorageState)
    (h1 : s.updPipe = none)
    (hok : (enableUpdatePipe env mode s).2 = EnableOutcome.retNil) :
    (enableUpdatePipe env mode s).1 =
      { s with
          updPipe := some { listenActive := decide (mode = BackendMode.modeReplicate),
                            pushInit := true },
          forwarderStarted := true,
          wrappedCap := some (env.backCap * 2),
          updates := some UpdatesRef.wrappedStream } := by
  by_cases h2 : s.updates.isSome
  · simp [enableUpdatePipe, h1, h2] at hok
  · by_cases h3 : s.driver = "sqlite3"
    · by_cases h4 : mode = BackendMode.modeReplicate ∧ env.listenFails
      · simp [enableUpdatePipe, h1, h2, h3, h4] at hok
      · by_cases h5 : env.initPushFails = true
        · simp [enableUpdatePipe, h1, h2, h3, h4, h5] at hok
        · simp [enableUpdatePipe, h1, h2, h3, h4, h5]
    · simp [enableUpdatePipe, h1, h2, h3] at hok

/-- Claim C3 counterexample: a second `EnableUpdatePipe` call on a storage
whose pipe is already active returns nil (imapsql.go line 212) — it does not
fail with an AlreadyActive error as the claim states. -/
theorem second_enable_returns_nil_cx :
    (enableUpdatePipe defaultEnv BackendMode.modeReplicate afterFirstEnable).2
        = EnableOutcome.retNil ∧
      ((enableUpdatePipe defaultEnv BackendMode.modeReplicate afterFirstEnable).2).isErr
        = false ∧
      (enableUpdatePipe defaultEnv BackendMode.modeReplicate afterFirstEnable).1
        = afterFirstEnable := by
  decide

/-- Claim C3 (amended): a second `EnableUpdatePipe` call on a storage whose
pipe is already active returns nil — reporting success as a silent no-op, not
an error — and has no side effect at all: no new pipe, no new goroutine, the
updates channel unchanged. -/
theorem second_enable_is_noop (env : PipeEnv) (mode : BackendMode) (s : StorageState)
    (h : s.updPipe.isSome) :
    enableUpdatePipe env mode s = (s, EnableOutcome.retNil) := by
  simp [enableUpdatePipe, h]

/-- Claim C3 witness: the state after a first successful activation. -/
theorem second_enable_is_noop_witness :
    enableUpdatePipe defaultEnv BackendMode.modeReplicate afterFirstEnable
      = (afterFirstEnable, EnableOutcome.retNil) :=
  second_enable_is_noop defaultEnv BackendMode.modeReplicate afterFirstEnable
    (by decide)

/-- Claim C4 counterexample: with the raw backend channel already claimed by
`Updates()`, `EnableUpdatePipe` panics (imapsql.go line 215) — it does not
return an AlreadyConsuming error to the caller. -/
theorem enable_after_updates_panics_cx :
    (enableUpdatePipe defaultEnv BackendMode.modeReplicate consumedState).2
        = EnableOutcome.panicked "imapsql: EnableUpdatePipe called after Updates" ∧
      ((enableUpdatePipe defaultEnv BackendMode.modeReplicate consumedState).2).isErr
        = false := by
  decide

/-- Claim C4 (amended): on every storage whose raw update channel was already
claimed (`updates` non-nil, `updPipe` nil), `EnableUpdatePipe` terminates the
process by panicking with the message of line 215 instead of returning an
error, and no storage field is modified. -/
theorem enable_after_updates_panics (env : PipeEnv) (mode : BackendMode)
    (s : StorageState) (h1 : s.updPipe = none) (h2 : s.updates.isSome) :
    enableUpdatePipe env mode s
      = (s, EnableOutcome.panicked "imapsql: EnableUpdatePipe called after Updates") := by
  simp [enableUpdatePipe, h1, h2]

/-- Claim C4 witness: fresh storage on which `Updates()` ran first. -/
theorem enable_after_updates_panics_witness :
    enableUpdatePipe defaultEnv BackendMode.modeReplicate consumedState
      = (consumedState,
         EnableOutcome.panicked "imapsql: EnableUpdatePipe called after Updates") :=
  enable_after_updates_panics defaultEnv BackendMode.modeReplicate consumedState
    (by decide) (by decide)

/-- Claim C5: a successful `EnableUpdatePipe` allocates the wrapped channel
with capacity `cap(upds)*2` (imapsql.go line 233): at least double the
backend update channel capacity, and exactly 8 when that capacity is 4. -/
theorem wrapped_capacity_double (env : PipeEnv) (mode : BackendMode)
    (s : StorageState) (h1 : s.updPipe = none)
    (hok : (enableUpdatePipe env mode s).2 = EnableOutcome.retNil) :
    ∃ c, (enableUpdatePipe env mode s).1.wrappedCap = some c ∧
      2 * env.backCap ≤ c ∧ (env.backCap = 4 → c = 8) := by
  refine ⟨env.backCap * 2, ?_, by omega, by omega⟩
  rw [enable_success_shape env mode s h1 hok]

/-- Claim C5 witness: backend capacity 4 gives wrapped capacity 8. -/
theorem wrapped_capacity_double_witness :
    ∃ c, (enableUpdatePipe defaultEnv BackendMode.modeReplicate
            freshSqliteState).1.wrappedCap = some c ∧
      2 * defaultEnv.backCap ≤ c ∧ (defaultEnv.backCap = 4 → c = 8) :=
  wrapped_capacity_double defaultEnv BackendMode.modeReplicate freshSqliteState
    rfl (by decide)

/-- Claim C6 counterexample: in Listen-only mode `EnableUpdatePipe` succeeds
but does not activate the receive capability — `updPipe.Listen` is called
only when the mode equals `ModeReplicate` (imapsql.go line 235), so the
claimed iff over {Listen-only, Replicate} fails at Listen-only. -/
theorem listen_mode_no_receive_cx :
    (enableUpdatePipe defaultEnv BackendMode.modeListen freshSqliteState).2
        = EnableOutcome.retNil ∧
      (enableUpdatePipe defaultEnv BackendMode.modeListen freshSqliteState).1.updPipe
        = some { listenActive := false, pushInit := true } ∧
      (enableUpdatePipe defaultEnv BackendMode.modeListen freshSqliteState).1.updPipe
        ≠ some { listenActive := true, pushInit := true } := by
  decide

/-- Claim C6 (amended): a successful `EnableUpdatePipe(mode)` activates the
receive capability (`updPipe.Listen`) iff the mode is Replicate, and the
transmit capability (`updPipe.InitPush`) unconditionally in every mode. -/
theorem receive_iff_replicate (env : PipeEnv) (mode : BackendMode)
    (s : StorageState) (h1 : s.updPipe = none)
    (hok : (enableUpdatePipe env mode s).2 = EnableOutcome.retNil) :
    (enableUpdatePipe env mode s).1.updPipe
      = some { listenActive := decide (mode = BackendMode.modeReplicate),
               pushInit := true } := by
  rw [enable_success_shape env mode s h1 hok]

/-- Claim C6 witness: Listen-only mode on a fresh sqlite3 storage. -/
theorem receive_iff_replicate_witness :
    (enableUpdatePipe defaultEnv BackendMode.modeListen freshSqliteState).1.updPipe
      = some { listenActive := decide (BackendMode.modeListen = BackendMode.modeReplicate),
               pushInit := true } :=
  receive_iff_replicate defaultEnv BackendMode.modeListen freshSqliteState
    rfl (by decide)

/-- Claim C10: every error return of `EnableUpdatePipe` (unsupported driver,
`Listen` failure, `InitPush` failure) leaves `updPipe` nil and `updates` nil,
starts no forwarder goroutine, and a later `Updates()` call still hands out
the raw backend update channel. -/
theorem enable_error_resets_state (env : PipeEnv) (mode : BackendMode)
    (s : StorageState) (e : ErrSrc)
    (herr : (enableUpdatePipe env mode s).2 = EnableOutcome.retErr e) :
    (enableUpdatePipe env mode s).1.updPipe = none ∧
      (enableUpdatePipe env mode s).1.updates = none ∧
      (enableUpdatePipe env mode s).1.forwarderStarted = s.forwarderStarted ∧
      (updatesMethod (enableUpdatePipe env mode s).1).2 = UpdatesRef.rawBackend := by
  by_cases h1 : s.updPipe.isSome
  · simp [enableUpdatePipe, h1] at herr
  · rw [Option.not_isSome_iff_eq_none] at h1
    by_cases h2 : s.updates.isSome
    · simp [enableUpdatePipe, h1, h2] at herr
    · rw [Option.not_isSome_iff_eq_none] at h2
      by_cases h3 : s.driver = "sqlite3"
      · by_cases h4 : mode = BackendMode.modeReplicate ∧ env.listenFails
        · simp [enableUpdatePipe, h1, h2, h3, h4, updatesMethod]
        · by_cases h5 : env.initPushFails = true
          · simp [enableUpdatePipe, h1, h2, h3, h4, h5, updatesMethod]
          · simp [enableUpdatePipe, h1, h2, h3, h4, h5] at herr
      · simp [enableUpdatePipe, h1, h2, h3, updatesMethod]

/-- Claim C10 witness: a `Listen` failure in Replicate mode. -/
theorem enable_error_resets_state_witness :
    ((enableUpdatePipe ⟨4, true, false⟩ BackendMode.modeReplicate
        freshSqliteState).1.updPipe = none ∧
      (enableUpdatePipe ⟨4, true, false⟩ BackendMode.modeReplicate
        freshSqliteState).1.updates = none ∧
      (enableUpdatePipe ⟨4, true, false⟩ BackendMode.modeReplicate
        freshSqliteState).1.forwarderStarted = freshSqliteState.forwarderStarted ∧
      (updatesMethod (enableUpdatePipe ⟨4, true, false⟩ BackendMode.modeReplicate
        freshSqliteState).1).2 = UpdatesRef.rawBackend) :=
  enable_error_resets_state ⟨4, true, false⟩ BackendMode.modeReplicate
    freshSqliteState ErrSrc.listenFailed (by decide)

/-- Sanity check of the concurrency model: the drain schedule does deliver the
buffered event before `Close` returns — the intended behaviour is reachable. -/
theorem drain_schedule_delivers :
    (runSys (initSys [0])
        [Choice.callClose, Choice.selectEvent, Choice.recvNil,
         Choice.drainStop, Choice.ackRecv]).delivered = [0] ∧
      (runSys (initSys [0])
        [Choice.callClose, Choice.selectEvent, Choice.recvNil,
         Choice.drainStop, Choice.ackRecv]).closePc = ClosePc.returned := by
  decide

/-- Claim C2: refuting evaluation.  With one event buffered in the backend
update channel, the `select` at imapsql.go line 260 may legally take the stop
case (both cases are ready, Go picks one at random): the goroutine then exits
and closes `wrapped` without forwarding the buffered event, and `Close`
returns with the event lost — contradicting the comment at lines 369-371
("so we will send all updates before shuting down"). -/
theorem close_may_drop_buffered_update :
    (runSys (initSys [0])
        [Choice.callClose, Choice.selectStop, Choice.ackRecv]).closePc
        = ClosePc.returned ∧
      (runSys (initSys [0])
        [Choice.callClose, Choice.selectStop, Choice.ackRecv]).delivered = [] ∧
      (runSys (initSys [0])
        [Choice.callClose, Choice.selectStop, Choice.ackRecv]).buffered = [0] := by
  decide

/-- Helper: the configuration with the panicked goroutine blocked sending the
acknowledgment and `Close` blocked sending the stop signal is stuck: no
scheduler choice changes it, because two senders on the unbuffered
`updPushStop` channel can never rendezvous with each other. -/
theorem panicThenClose_step_fixed : ∀ c : Choice, step panicThenClose c = panicThenClose := by
  intro c
  cases c <;> rfl

/-- Helper: the stuck configuration persists under every schedule. -/
theorem runSys_panicThenClose (sched : List Choice) :
    runSys panicThenClose sched = panicThenClose := by
  induction sched with
  | nil => rfl
  | cons c cs ih =>
    show runSys (step panicThenClose c) cs = panicThenClose
    rw [panicThenClose_step_fixed c]
    exact ih

/-- Claim C9: refuting evaluation.  After `updPipe.Push` panics while an event
is being processed and `Close` is then called, no schedule ever lets `Close`
return and no schedule ever reaches the `recover` at line 253: the deferred
block first blocks sending the acknowledgment (line 250) on the unbuffered
`updPushStop` channel while `Close` blocks sending the stop signal (line 373)
on the same channel, so the panic is never logged and the node can never shut
down cleanly. -/
theorem panic_blocks_shutdown (sched : List Choice) :
    (runSys panicThenClose sched).closePc ≠ ClosePc.returned ∧
      (runSys panicThenClose sched).loggedFault = false := by
  rw [runSys_panicThenClose sched]
  exact ⟨by decide, by decide⟩
